import Mathlib

/-!
Verification of the Run Orchestration & Queueing Engine of the openclaw
repository against its natural-language specification.

The embedding translates `src/auto-reply/reply/agent-runner.ts`
(`runReplyAgent` and its helper `buildPayloadKey`),
`src/agents/pi-embedded-helpers.ts` (`formatAssistantErrorText`,
`isContextOverflowError`) and `src/config/types.ts` / `typing-mode.ts`
(`createTypingSignaler`) into executable Lean definitions.  Strings are
modelled through their character lists so that every predicate the code
computes is decidable by evaluation.  FS, logging and network effects are
out of scope; store writes are modelled as pure transformations of an
association-list store, and the `queueEmbeddedPiMessage` side-channel call
is an input boolean (its success/failure is external to the engine).

Helper modules of this repository that are imported by agent-runner.ts but
whose sources are not available (heartbeat.ts, tokens.ts, usage.ts,
reply-payloads.ts, reply-threading.ts, audio-tags.ts, session-updates.ts)
are modelled from the specification; each such definition carries a doc
comment starting with "Modelled from the spec:".
-/

namespace OpenClaw

/-! ### JavaScript string primitives, modelled on character lists -/

/-- JS `String.prototype.trim`, modelled on the character list
(whitespace removed from both ends). -/
def jsTrim (s : String) : String :=
  ⟨((s.data.dropWhile Char.isWhitespace).reverse.dropWhile Char.isWhitespace).reverse⟩

/-- JS `String.prototype.toLowerCase` (ASCII-faithful). -/
def jsLower (s : String) : String :=
  ⟨s.data.map Char.toLower⟩

/-- JS `String.prototype.includes`: substring containment. -/
def jsIncludes (s pat : String) : Bool :=
  decide (pat.data <:+: s.data)

/-- JS `String.prototype.slice(0, n)` for ASCII text: the first `n` characters. -/
def jsTakeChars (s : String) (n : Nat) : String :=
  ⟨s.data.take n⟩

/-- JS string length for ASCII text: the number of characters. -/
def jsLen (s : String) : Nat :=
  s.data.length

/-- Scan for the JS regex `/context.*overflow/` applied to one string:
some occurrence of `"context"` followed, with no intervening newline
(JS `.` does not match line terminators), by `"overflow"`. -/
def ctxOverflowScan : List Char → Bool
  | [] => false
  | c :: cs =>
    (if "context".data <+: (c :: cs) then
       decide ("overflow".data <:+:
         ((c :: cs).drop "context".data.length).takeWhile
           (fun ch => !(ch == '\n') && !(ch == '\r')))
     else false)
    || ctxOverflowScan cs

/-- Scan used to model a JS lazy regex fragment: return the characters after
the first occurrence of `pat`, or `none` when `pat` does not occur. -/
def afterFirst (pat : List Char) : List Char → Option (List Char)
  | [] => none
  | c :: cs =>
    if pat <+: (c :: cs) then some ((c :: cs).drop pat.length)
    else afterFirst pat cs

/-- Like `afterFirst` but the scan stops at a line terminator, modelling a
JS `.*?` gap in which `.` does not match newlines. -/
def afterFirstNoNl (pat : List Char) : List Char → Option (List Char)
  | [] => none
  | c :: cs =>
    if pat <+: (c :: cs) then some ((c :: cs).drop pat.length)
    else if c == '\n' || c == '\r' then none
    else afterFirstNoNl pat cs

/-! ### Heartbeat token stripping

`stripHeartbeatToken` lives in auto-reply/heartbeat.ts, which is not under
src/; agent-runner.ts only calls it.  It is modelled from the spec: the
reserved acknowledgement token "must never leak into user-visible text",
stripping is idempotent, and "if stripping empties the text and there is
no attached media, the event is suppressed entirely".  The model removes
occurrences of the token until none remains (a fixpoint, so the result
provably never contains the token) and flags whitespace-only remainders
for suppression. -/

/-- The reserved heartbeat acknowledgement token (its literal appears in
agent-runner.ts line 267 and config/types.ts line 1476). -/
def hbTok : List Char := "HEARTBEAT_OK".data

/-- One left-to-right pass removing non-overlapping occurrences of the
heartbeat token; `fuel` bounds the scan (`fuel ≥ length` suffices). -/
def stripOnce : Nat → List Char → List Char
  | 0, l => l
  | _ + 1, [] => []
  | fuel + 1, c :: cs =>
    if hbTok <+: (c :: cs) then stripOnce fuel ((c :: cs).drop hbTok.length)
    else c :: stripOnce fuel cs

/-- Iterate `stripOnce` until the token no longer occurs. -/
def stripLoop : Nat → List Char → List Char
  | 0, l => l
  | fuel + 1, l =>
    if hbTok <:+: l then stripLoop fuel (stripOnce l.length l) else l

/-- Remove every occurrence of the heartbeat token from a character list. -/
def stripAllChars (l : List Char) : List Char :=
  stripLoop l.length l

/-- `text.includes("HEARTBEAT_OK")` as used by agent-runner.ts. -/
def containsHeartbeat (s : String) : Bool :=
  decide (hbTok <:+: s.data)

/-- Result record of `stripHeartbeatToken` as consumed by agent-runner.ts:
the stripped text, whether anything was stripped, and whether the event
should be suppressed. -/
structure StripResult where
  text : String
  didStrip : Bool
  shouldSkip : Bool
deriving Repr, DecidableEq

/-- Modelled from the spec: `stripHeartbeatToken` (auto-reply/heartbeat.ts,
not under src/).  Removes the reserved acknowledgement token from the text
(to a fixpoint, so it can never leak), reports whether a strip happened,
and requests suppression when only whitespace remains. -/
def stripHeartbeatToken (s : String) : StripResult :=
  let strippedData := stripAllChars s.data
  { text := ⟨strippedData⟩
    didStrip := decide (hbTok <:+: s.data)
    shouldSkip := strippedData.all Char.isWhitespace }

/-! ### Data model: payloads, usage, session entries, the session store -/

/-- `ReplyPayload` of auto-reply/types.ts as read and written by
agent-runner.ts: optional text, media references, reply-threading target,
voice flag, and the error marker consulted by the sanitizer. -/
structure ReplyPayload where
  text : Option String := none
  mediaUrl : Option String := none
  mediaUrls : Option (List String) := none
  replyToId : Option String := none
  audioAsVoice : Option Bool := none
  isError : Bool := false
deriving Repr, DecidableEq

/-- The dedup key computed by `buildPayloadKey` (agent-runner.ts lines
147-159).  The source serialises `{text, mediaList, replyToId}` with
`JSON.stringify`; since that serialisation is injective on the triple, the
key is modelled as the triple itself. -/
structure PayloadKey where
  text : String
  mediaList : List String
  replyToId : Option String
deriving Repr, DecidableEq

/-- `buildPayloadKey` (agent-runner.ts lines 147-159): trimmed text, the
media list (`mediaUrls` when non-empty, else the singleton `mediaUrl`,
else empty), and the reply target. -/
def buildPayloadKey (p : ReplyPayload) : PayloadKey :=
  { text := jsTrim (p.text.getD "")
    mediaList :=
      match p.mediaUrls with
      | some l => if l.length > 0 then l else
          match p.mediaUrl with
          | some u => [u]
          | none => []
      | none =>
          match p.mediaUrl with
          | some u => [u]
          | none => []
    replyToId := p.replyToId }

/-- Token usage reported by a run (`runResult.meta.agentMeta?.usage`). -/
structure Usage where
  input : Option Nat := none
  output : Option Nat := none
  cacheRead : Option Nat := none
  cacheWrite : Option Nat := none
  total : Option Nat := none
deriving Repr, DecidableEq

/-- `SessionEntry` of config/sessions.ts restricted to the fields
agent-runner.ts reads or writes. -/
structure SessionEntry where
  sessionId : Option String := none
  updatedAt : Nat := 0
  modelProvider : Option String := none
  model : Option String := none
  inputTokens : Option Nat := none
  outputTokens : Option Nat := none
  totalTokens : Option Nat := none
  contextTokens : Option Nat := none
  verboseLevel : Option String := none
  compactionCount : Option Nat := none
  groupActivationNeedsSystemIntro : Bool := false
deriving Repr, DecidableEq

/-- The session store (`Record<string, SessionEntry>`) as an association
list keyed by the conversation/session key. -/
abbrev Store := List (String × SessionEntry)

def lookupEntry (st : Store) (k : String) : Option SessionEntry :=
  (st.find? (fun kv => kv.1 == k)).map (·.2)

/-- `sessionStore[sessionKey] = entry`. -/
def setEntry (st : Store) (k : String) (e : SessionEntry) : Store :=
  (st.filter (fun kv => kv.1 != k)) ++ [(k, e)]

/-- `delete sessionStore[sessionKey]`. -/
def removeEntry (st : Store) (k : String) : Store :=
  st.filter (fun kv => kv.1 != k)

/-! ### Error classification and the pre-reply failure handler
(agent-runner.ts lines 48-61 and 435-481, pi-embedded-helpers.ts) -/

/-- The regex `/socket connection was closed unexpectedly/i`
(agent-runner.ts line 48), with `isBunFetchSocketError` (lines 50-51). -/
def isBunFetchSocketError (message : Option String) : Bool :=
  match message with
  | some m => jsIncludes (jsLower m) "socket connection was closed unexpectedly"
  | none => false

/-- `formatBunFetchSocketError` (agent-runner.ts lines 53-61). -/
def formatBunFetchSocketError (message : String) : String :=
  let trimmed := jsTrim message
  String.intercalate "\n"
    [ "⚠️ LLM connection failed. This could be due to server issues, network problems, or context length exceeded (e.g., with local LLMs like LM Studio). Original error:"
    , "```"
    , if trimmed.data.isEmpty then "Unknown error" else trimmed
    , "```" ]

/-- The regex `/context.*overflow|too large|context window/i` test
(agent-runner.ts lines 437-438). -/
def isContextOverflowRunMsg (message : String) : Bool :=
  let l := jsLower message
  ctxOverflowScan l.data || jsIncludes l "too large" || jsIncludes l "context window"

/-- The regex `/function call turn comes immediately after/i` test
(agent-runner.ts lines 439-440). -/
def isSessionCorruptionMsg (message : String) : Bool :=
  jsIncludes (jsLower message) "function call turn comes immediately after"

/-- The optional context available to the catch handler of
`runReplyAgent`: session key, in-memory store, store path and the
session entry loaded on admission. -/
structure PreReplyCtx where
  sessionKey : Option String := none
  store : Option Store := none
  storePath : Option String := none
  sessionEntry : Option SessionEntry := none
deriving Repr, DecidableEq

/-- Outcome of the catch handler: the store after recovery, whether the
transcript artifact was deleted, the payload returned to the caller, and
whether the session-corruption branch ran.  The handler is a total
function into a payload — the error is never re-raised. -/
structure PreReplyResult where
  store : Option Store
  transcriptDeleted : Bool
  payload : ReplyPayload
  recovered : Bool
deriving Repr, DecidableEq

/-- The catch handler of `runReplyAgent` (agent-runner.ts lines 435-481):
session corruption with key, store and store path present resets the
session (transcript unlink when the corrupted sessionId is resolvable,
store entry removed) and returns a one-line apology; otherwise the
failure is classified context-overflow vs generic and a textual payload
is returned. -/
def handlePreReplyFailure (ctx : PreReplyCtx) (message : String) : PreReplyResult :=
  match isSessionCorruptionMsg message, ctx.sessionKey, ctx.store, ctx.storePath with
  | true, some k, some st, some _ =>
    let corruptedSessionId := ctx.sessionEntry.bind (·.sessionId)
    { store := some (removeEntry st k)
      transcriptDeleted := corruptedSessionId.isSome
      payload := { text := some "⚠️ Session history was corrupted. I've reset the conversation - please try again!" }
      recovered := true }
  | _, _, _, _ =>
    { store := ctx.store
      transcriptDeleted := false
      payload := { text := some (
          if isContextOverflowRunMsg message then
            "⚠️ Context overflow - conversation too long. Starting fresh might help!"
          else
            "⚠️ Agent failed before reply: " ++ message ++ ". Check gateway logs for details.") }
      recovered := false }

/-- `isContextOverflowError` (pi-embedded-helpers.ts lines 129-139). -/
def isContextOverflowError (errorMessage : Option String) : Bool :=
  match errorMessage with
  | none => false
  | some e =>
    let lower := jsLower e
    jsIncludes lower "request_too_large" ||
    jsIncludes lower "request exceeds the maximum size" ||
    jsIncludes lower "context length exceeded" ||
    jsIncludes lower "maximum context length" ||
    (jsIncludes lower "413" && jsIncludes lower "too large")

/-- The assistant message fields `formatAssistantErrorText` reads. -/
structure AssistantMessage where
  stopReason : String
  errorMessage : Option String := none
deriving Repr, DecidableEq

/-- The capture of the regex
`/"type":"invalid_request_error".*?"message":"([^"]+)"/`
(pi-embedded-helpers.ts lines 156-158): text after the first
`"type":"invalid_request_error"`, then after the first following
`"message":"` reached without crossing a line terminator (JS `.` does not
match newlines), the non-empty run of characters before the next quote.
The model commits to the first marker occurrence rather than simulating
full regex backtracking. -/
def findInvalidRequestMessage (raw : String) : Option String :=
  match afterFirst "\"type\":\"invalid_request_error\"".data raw.data with
  | none => none
  | some rest =>
    match afterFirstNoNl "\"message\":\"".data rest with
    | none => none
    | some rest2 =>
      let cap := rest2.takeWhile (fun ch => !(ch == '"'))
      if cap.isEmpty then none
      else if (rest2.drop cap.length).isEmpty then none
      else some ⟨cap⟩

/-- `formatAssistantErrorText` (pi-embedded-helpers.ts lines 141-165). -/
def formatAssistantErrorText (msg : AssistantMessage) : Option String :=
  if msg.stopReason != "error" then none
  else
    let raw := jsTrim (msg.errorMessage.getD "")
    if raw.data.isEmpty then some "LLM request failed with an unknown error."
    else if isContextOverflowError (some raw) then
      some "Context overflow: the conversation history is too large. Use /new or /reset to start a fresh session."
    else
      match findInvalidRequestMessage raw with
      | some m => some ("LLM request rejected: " ++ m)
      | none =>
        if 600 < raw.data.length then some (jsTakeChars raw 600 ++ "…")
        else some raw

/-! ### Payload helpers imported by agent-runner.ts whose modules are not
under src/ (tokens.ts, audio-tags.ts, reply-payloads.ts,
reply-threading.ts): modelled from the spec. -/

/-- Modelled from the spec: the reserved silent-reply token
(auto-reply/tokens.ts, not under src/).  Its literal value is not given by
the spec; any fixed non-empty token works for the engine's comparisons. -/
def SILENT_REPLY_TOKEN : String := "SILENT_REPLY"

/-- Result of audio-tag extraction as consumed by agent-runner.ts:
the cleaned text and the voice flag. -/
structure AudioTagResult where
  cleaned : String
  audioAsVoice : Option Bool
deriving Repr, DecidableEq

/-- Modelled from the spec: `extractAudioTag` (auto-reply/reply/audio-tags.ts,
not under src/).  The spec does not describe the audio-tag syntax; the
extraction is modelled as returning the text unchanged with no voice flag. -/
def extractAudioTag (t : Option String) : AudioTagResult :=
  { cleaned := t.getD "", audioAsVoice := none }

/-- Modelled from the spec: `applyReplyTagsToPayload`
(auto-reply/reply/reply-payloads.ts, not under src/).  The spec does not
describe explicit reply-tag parsing; modelled as the identity on the
payload. -/
def applyReplyTagsToPayload (p : ReplyPayload) (_msgId : Option String) : ReplyPayload :=
  p

/-- Modelled from the spec: `isRenderablePayload`
(auto-reply/reply/reply-payloads.ts, not under src/): "A payload is
renderable iff it has non-empty text after tag-stripping, or at least one
media reference." -/
def isRenderablePayload (p : ReplyPayload) : Bool :=
  (match p.text with
   | some t => !(jsTrim t).data.isEmpty
   | none => false)
  || p.mediaUrl.isSome
  || (match p.mediaUrls with
      | some l => !l.isEmpty
      | none => false)

/-- The reply-threading mode (auto-reply/reply/reply-threading.ts, not
under src/): off / first / all, per spec section 4.2 step 1. -/
inductive ReplyToMode
  | off
  | first
  | all
deriving Repr, DecidableEq

/-- Modelled from the spec: the per-payload reply-to filter built by
`createReplyToModeFilter` — "off" drops the reply-to reference, "first"
and "all" tag the payload with the current message id when it has none. -/
def applyReplyToModePayload : ReplyToMode → Option String → ReplyPayload → ReplyPayload
  | .off, _, p => { p with replyToId := none }
  | _, msgId, p => { p with replyToId := p.replyToId <|> msgId }

/-- Modelled from the spec: `applyReplyThreading`
(auto-reply/reply/reply-payloads.ts, not under src/) — "off" drops,
"first" tags only the first payload, "all" tags every payload. -/
def applyReplyThreading (mode : ReplyToMode) (msgId : Option String)
    (ps : List ReplyPayload) : List ReplyPayload :=
  match mode, ps with
  | .first, p :: rest =>
    applyReplyToModePayload .first msgId p ::
      rest.map (fun q => { q with replyToId := none })
  | m, l => l.map (applyReplyToModePayload m msgId)

/-- Modelled from the spec: `filterMessagingToolDuplicates`
(auto-reply/reply/reply-payloads.ts, not under src/) — "if the agent's own
tool execution already sent identical text through a side channel ...
drop matching final payloads". -/
def filterMessagingToolDuplicates (ps : List ReplyPayload) (sentTexts : List String) :
    List ReplyPayload :=
  ps.filter (fun p =>
    match p.text with
    | some t => !((sentTexts.map jsTrim).contains (jsTrim t))
    | none => true)

/-- Modelled from the spec: `hasNonzeroUsage` on the usage record
(agents/usage.ts, not under src/) — "the run produced nonzero token
usage". -/
def hasNonzeroUsageFields (u : Usage) : Bool :=
  0 < u.input.getD 0 + u.output.getD 0 + u.cacheRead.getD 0 +
      u.cacheWrite.getD 0 + u.total.getD 0

/-- Modelled from the spec: `hasNonzeroUsage` (agents/usage.ts, not under
src/) on the optional usage record. -/
def hasNonzeroUsage : Option Usage → Bool
  | none => false
  | some u => hasNonzeroUsageFields u

/-! ### Streaming-event and final-payload sanitization
(agent-runner.ts lines 263-291, 390-429, 510-530) -/

/-- The heartbeat-stripping gate shared by `onPartialReply` (lines
266-290) and `onToolResult` (lines 395-419): for a non-heartbeat run
whose text contains the token, strip it; suppress the event entirely
(`none`) when the strip requests a skip and no media is attached;
otherwise deliver the (possibly stripped) text. -/
def sanitizeStreamEvent (isHeartbeat : Bool) (text : Option String)
    (mediaCount : Nat) : Option (Option String) :=
  match text with
  | some t =>
    if !isHeartbeat && containsHeartbeat t then
      let stripped := stripHeartbeatToken t
      if stripped.shouldSkip && mediaCount == 0 then none
      else some (some stripped.text)
    else some (some t)
  | none => some none

/-- The heartbeat gate of the final sanitizer (agent-runner.ts lines
519-529): deliver token-free text as-is, otherwise strip the token and
drop the payload when the strip requests a skip and no media is
attached. -/
def hbFinalGate (p : ReplyPayload) (t : String) : List ReplyPayload :=
  if !containsHeartbeat t then [{ p with text := some t }]
  else
    let stripped := stripHeartbeatToken t
    let hasMedia := p.mediaUrl.isSome ||
      (match p.mediaUrls with
       | some l => !l.isEmpty
       | none => false)
    if stripped.shouldSkip && !hasMedia then []
    else [{ p with text := some stripped.text }]

/-- Per-payload final sanitization (agent-runner.ts lines 512-530, the
non-heartbeat `flatMap` body): rewrite Bun fetch socket errors, then
apply the heartbeat gate. -/
def sanitizeFinalPayload (p : ReplyPayload) : List ReplyPayload :=
  match p.text with
  | none => [{ p with text := none }]
  | some t =>
    let t1 :=
      if p.isError && isBunFetchSocketError (some t) then
        formatBunFetchSocketError t
      else t
    hbFinalGate p t1

/-! ### Block streaming: the `onBlockReply` handler
(agent-runner.ts lines 321-388) -/

/-- Dedup state of one run: the keys of blocks already delivered, the
block payloads delivered so far, and the `didStreamBlockReply` flag.
Delivery tasks are modelled on their success path completing in order, so
the in-flight pending set of the source coincides with the delivered-key
set at event boundaries. -/
structure BlockState where
  streamedKeys : List PayloadKey := []
  delivered : List ReplyPayload := []
  didStream : Bool := false
deriving Repr, DecidableEq

/-- The `onBlockReply` handler (agent-runner.ts lines 323-387) for one
completed block: heartbeat stripping, reply tagging, renderability check,
audio-tag extraction, the silent-reply suppression, reply-to tagging, and
key-based dedup before delivery. -/
def processBlockReply (isHeartbeat : Bool) (mode : ReplyToMode)
    (msgId : Option String) (st : BlockState) (payload : ReplyPayload) :
    BlockState :=
  let textAfterHb : Option (Option String) :=
    match payload.text with
    | some t =>
      if !isHeartbeat && containsHeartbeat t then
        let stripped := stripHeartbeatToken t
        let hasMedia :=
          match payload.mediaUrls with
          | some l => !l.isEmpty
          | none => false
        if stripped.shouldSkip && !hasMedia then none
        else some (some stripped.text)
      else some (some t)
    | none => some none
  match textAfterHb with
  | none => st
  | some text =>
    let taggedPayload := applyReplyTagsToPayload
      { text := text
        mediaUrls := payload.mediaUrls
        mediaUrl := payload.mediaUrls.bind (·.head?) } msgId
    if !isRenderablePayload taggedPayload then st
    else
      let audioTagResult := extractAudioTag taggedPayload.text
      let cleaned : Option String :=
        if audioTagResult.cleaned.data.isEmpty then none
        else some audioTagResult.cleaned
      let hasMedia := taggedPayload.mediaUrl.isSome ||
        (match taggedPayload.mediaUrls with
         | some l => !l.isEmpty
         | none => false)
      if cleaned.isNone && !hasMedia then st
      else if (match cleaned with
               | some c => jsTrim c == SILENT_REPLY_TOKEN
               | none => false) && !hasMedia then st
      else
        let blockPayload := applyReplyToModePayload mode msgId
          { taggedPayload with
            text := cleaned
            audioAsVoice := audioTagResult.audioAsVoice }
        let payloadKey := buildPayloadKey blockPayload
        if st.streamedKeys.contains payloadKey then st
        else
          { streamedKeys := st.streamedKeys ++ [payloadKey]
            delivered := st.delivered ++ [blockPayload]
            didStream := true }

/-! ### The final-payload filter and the run-completion pipeline
(agent-runner.ts lines 483-656) -/

/-- The final filter (agent-runner.ts lines 549-562): with block streaming
enabled, drop the whole final list when any block was streamed, otherwise
filter by streamed keys; without block streaming, pass through. -/
def finalFilterStage (blockStreamingEnabled didStreamBlockReply : Bool)
    (streamedKeys : List PayloadKey) (deduped : List ReplyPayload) :
    List ReplyPayload :=
  if blockStreamingEnabled && didStreamBlockReply then []
  else if blockStreamingEnabled then
    deduped.filter (fun p => !(streamedKeys.contains (buildPayloadKey p)))
  else deduped

/-- All inputs of the completion phase of `runReplyAgent` that follows a
successful model call (lines 483-656).  External lookups that the
completion only forwards (`lookupContextTokens`, the run's provider and
model) are carried as inputs. -/
structure CompletionInput where
  payloads : List ReplyPayload := []
  messagingToolSentTexts : List String := []
  usage : Option Usage := none
  agentMetaModel : Option String := none
  agentMetaProvider : Option String := none
  fallbackModel : Option String := none
  fallbackProvider : Option String := none
  runProvider : Option String := none
  defaultModel : String := "default-model"
  agentCfgContextTokens : Option Nat := none
  lookupCtx : Option Nat := none
  defaultContextTokens : Nat := 200000
  isHeartbeat : Bool := false
  blockStreamingEnabled : Bool := false
  didStreamBlockReply : Bool := false
  streamedPayloadKeys : List PayloadKey := []
  replyToMode : ReplyToMode := .off
  currentMessageId : Option String := none
  sessionKey : Option String := none
  sessionEntry : Option SessionEntry := none
  store : Option Store := none
  storePath : Option String := none
  now : Nat := 0
  shouldInjectGroupIntro : Bool := false
  autoCompactionCompleted : Bool := false
  verboseOn : Bool := false
  isNewSession : Bool := false
  runSessionId : String := ""
deriving Repr, DecidableEq

/-- `contextTokensUsed` (agent-runner.ts lines 585-589):
`agentCfgContextTokens ?? lookupContextTokens(modelUsed) ??
sessionEntry?.contextTokens ?? DEFAULT_CONTEXT_TOKENS`. -/
def completionContextTokens (i : CompletionInput) : Nat :=
  ((i.agentCfgContextTokens <|> i.lookupCtx) <|>
    i.sessionEntry.bind (·.contextTokens)).getD i.defaultContextTokens

/-- `modelUsed` (lines 579-580). -/
def completionModelUsed (i : CompletionInput) : String :=
  (i.agentMetaModel <|> i.fallbackModel).getD i.defaultModel

/-- `providerUsed` (lines 581-584). -/
def completionProviderUsed (i : CompletionInput) : Option String :=
  (i.agentMetaProvider <|> i.fallbackProvider) <|> i.runProvider

/-- The nonzero-usage overwrite (agent-runner.ts lines 592-608): token
counters overwritten, `totalTokens` set to the cache-aware prompt sum
`input + cacheRead + cacheWrite` when positive, else `usage.total ??
input`; model/provider/contextTokens written; `updatedAt` advanced. -/
def applyUsageToEntry (entry : SessionEntry) (u : Usage)
    (providerUsed : Option String) (modelUsed : String) (ctxUsed : Nat)
    (now : Nat) : SessionEntry :=
  let input := u.input.getD 0
  let output := u.output.getD 0
  let promptTokens := input + u.cacheRead.getD 0 + u.cacheWrite.getD 0
  { entry with
    inputTokens := some input
    outputTokens := some output
    totalTokens := some (if 0 < promptTokens then promptTokens else u.total.getD input)
    modelProvider := providerUsed
    model := some modelUsed
    contextTokens := some ctxUsed
    updatedAt := now }

/-- The zero-usage refresh (agent-runner.ts lines 614-627): model,
provider and contextTokens refreshed, usage counters and `updatedAt`
preserved. -/
def refreshEntry (entry : SessionEntry) (providerUsed : Option String)
    (modelUsed : String) (ctxUsed : Nat) : SessionEntry :=
  { entry with
    modelProvider := providerUsed <|> entry.modelProvider
    model := some modelUsed
    contextTokens := some ctxUsed }

/-- The session-update block of the completion (agent-runner.ts lines
577-628), reached only on the delivery path and only when both a store
and a session key are present. -/
def completionSessionUpdate (st : Store) (k : String) (i : CompletionInput) :
    Store :=
  let modelUsed := completionModelUsed i
  let providerUsed := completionProviderUsed i
  let ctxUsed := completionContextTokens i
  let entryOpt := i.sessionEntry <|> lookupEntry st k
  if hasNonzeroUsage i.usage then
    match i.usage, entryOpt with
    | some u, some entry =>
      setEntry st k (applyUsageToEntry entry u providerUsed modelUsed ctxUsed i.now)
    | _, _ => st
  else if !modelUsed.data.isEmpty || ctxUsed != 0 then
    match entryOpt with
    | some entry => setEntry st k (refreshEntry entry providerUsed modelUsed ctxUsed)
    | none => st
  else st

/-- The group-intro write (agent-runner.ts lines 483-496): clear the
`groupActivationNeedsSystemIntro` flag and advance `updatedAt` before the
payload checks. -/
def groupIntroStage (i : CompletionInput) : Option Store × Option SessionEntry :=
  match i.shouldInjectGroupIntro, i.sessionEntry, i.store, i.sessionKey with
  | true, some e, some st, some k =>
    if e.groupActivationNeedsSystemIntro then
      let e' := { e with groupActivationNeedsSystemIntro := false, updatedAt := i.now }
      (some (setEntry st k e'), some e')
    else (some st, some e)
  | _, _, _, _ => (i.store, i.sessionEntry)

/-- Modelled from the spec: `incrementCompactionCount`
(auto-reply/reply/session-updates.ts, not under src/) — bump the
session's compaction counter in the store and report the new count. -/
def incrementCompactionCount (store : Option Store) (key : Option String)
    (entryParam : Option SessionEntry) : Option Store × Option Nat :=
  match store, key with
  | some st, some k =>
    match lookupEntry st k <|> entryParam with
    | some e =>
      let c := e.compactionCount.getD 0 + 1
      (some (setEntry st k { e with compactionCount := some c }), some c)
    | none => (some st, none)
  | _, _ => (store, none)

/-- Payloads surviving the full sanitize/tag/filter pipeline of the
completion (agent-runner.ts lines 510-562). -/
def completionFilteredPayloads (i : CompletionInput) : List ReplyPayload :=
  let sanitized :=
    if i.isHeartbeat then i.payloads
    else i.payloads.flatMap sanitizeFinalPayload
  let replyTagged :=
    ((applyReplyThreading i.replyToMode i.currentMessageId sanitized).map
      (fun p =>
        let r := extractAudioTag p.text
        { p with
          text := if r.cleaned.data.isEmpty then none else some r.cleaned
          audioAsVoice := r.audioAsVoice })).filter isRenderablePayload
  let deduped := filterMessagingToolDuplicates replyTagged i.messagingToolSentTexts
  finalFilterStage i.blockStreamingEnabled i.didStreamBlockReply
    i.streamedPayloadKeys deduped

/-- The completion phase of `runReplyAgent` (agent-runner.ts lines
483-656): group-intro write, early return on an empty payload array,
sanitize/tag/filter, early return on an empty filtered list, the session
update, then the compaction and new-session verbose prepends.  Returns
the final store and the payload list handed back to the caller. -/
def runReplyCompletion (i : CompletionInput) : Option Store × List ReplyPayload :=
  let s1 := groupIntroStage i
  if i.payloads.isEmpty then (s1.1, [])
  else
    let i1 := { i with store := s1.1, sessionEntry := s1.2 }
    let filtered := completionFilteredPayloads i1
    if filtered.isEmpty then (s1.1, [])
    else
      let store2 :=
        match s1.1, i.sessionKey with
        | some st, some k => some (completionSessionUpdate st k i1)
        | _, _ => s1.1
      let s3 :=
        if i.autoCompactionCompleted then
          let r := incrementCompactionCount store2 i.sessionKey s1.2
          let fp :=
            if i.verboseOn then
              ({ text := some ("🧹 Auto-compaction complete" ++
                  (match r.2 with
                   | some c => " (count " ++ toString c ++ ")"
                   | none => "") ++ ".") } : ReplyPayload) :: filtered
            else filtered
          (r.1, fp)
        else (store2, filtered)
      let finalPayloads :=
        if i.verboseOn && i.isNewSession then
          ({ text := some ("🧭 New session: " ++ i.runSessionId) } : ReplyPayload)
            :: s3.2
        else s3.2
      (s3.1, finalPayloads)

/-- A whole run with block streaming: fold the block events through the
`onBlockReply` handler (registered only when block streaming is enabled),
then run the completion with the resulting dedup state; the run's
user-visible deliveries are the streamed blocks followed by the returned
final payloads. -/
def runBlocksThenFinal (i : CompletionInput) (blocks : List ReplyPayload) :
    List ReplyPayload :=
  let st :=
    if i.blockStreamingEnabled then
      blocks.foldl (processBlockReply i.isHeartbeat i.replyToMode i.currentMessageId) {}
    else {}
  let i' := { i with
    streamedPayloadKeys := st.streamedKeys
    didStreamBlockReply := st.didStream }
  st.delivered ++ (runReplyCompletion i').2

/-! ### Steer/followup admission (agent-runner.ts lines 171-200) -/

/-- Admission outcome of the steer/followup prologue of `runReplyAgent`:
`injected` and `enqueued` return `undefined` without starting a new agent
turn; `proceed` continues into the model call. -/
inductive AdmitOutcome
  | injected
  | enqueued
  | proceed
deriving Repr, DecidableEq

/-- Inputs of the admission prologue.  `injectionSucceeds` is the boolean
result of the external `queueEmbeddedPiMessage` side-channel call. -/
structure SteerInput where
  shouldSteer : Bool := false
  shouldFollowup : Bool := false
  isActive : Bool := false
  isStreaming : Bool := false
  injectionSucceeds : Bool := false
  queueModeIsSteer : Bool := false
  sessionKey : Option String := none
  sessionEntry : Option SessionEntry := none
  store : Option Store := none
  now : Nat := 0
deriving Repr, DecidableEq

/-- Result of the admission prologue: the outcome, the store afterwards,
and whether `enqueueFollowupRun` was invoked (a backlog entry created). -/
structure SteerResult where
  outcome : AdmitOutcome
  store : Option Store
  enqueuedRun : Bool
deriving Repr, DecidableEq

/-- The `sessionEntry.updatedAt = Date.now(); sessionStore[sessionKey] =
sessionEntry` write performed on both the injected and the enqueued paths
(agent-runner.ts lines 177-183 and 191-197), guarded on the entry, store
and key being present. -/
def touchSessionUpdatedAt (store : Option Store) (key : Option String)
    (entry : Option SessionEntry) (now : Nat) : Option Store :=
  match entry, store, key with
  | some e, some st, some k => some (setEntry st k { e with updatedAt := now })
  | _, _, _ => store

/-- The admission prologue of `runReplyAgent` (agent-runner.ts lines
171-200): successful steer injection with no followup requested returns
`Injected` without enqueueing; otherwise an active run with followup
requested (or steer mode) enqueues the request; otherwise the turn
proceeds. -/
def steerAdmission (s : SteerInput) : SteerResult :=
  if s.shouldSteer && s.isStreaming && s.injectionSucceeds && !s.shouldFollowup then
    { outcome := .injected
      store := touchSessionUpdatedAt s.store s.sessionKey s.sessionEntry s.now
      enqueuedRun := false }
  else if s.isActive && (s.shouldFollowup || s.queueModeIsSteer) then
    { outcome := .enqueued
      store := touchSessionUpdatedAt s.store s.sessionKey s.sessionEntry s.now
      enqueuedRun := true }
  else
    { outcome := .proceed, store := s.store, enqueuedRun := false }

/-! ### Typing signaler (config/types.ts appended typing-mode.ts,
`createTypingSignaler` lines 1640-1689) -/

/-- `TypingMode` of config/types.ts. -/
inductive TypingMode
  | never
  | instant
  | thinking
  | message
deriving Repr, DecidableEq

/-- The calls a signaler can place on the external `TypingController`. -/
inductive TypingCall
  | startTypingLoop
  | startTypingOnText
  | refreshTypingTtl
deriving Repr, DecidableEq

def typingDisabled (mode : TypingMode) (isHeartbeat : Bool) : Bool :=
  isHeartbeat || mode == .never

def shouldStartImmediately (mode : TypingMode) : Bool :=
  mode == .instant

def shouldStartOnText (mode : TypingMode) : Bool :=
  mode == .message || mode == .instant

def shouldStartOnReasoning (mode : TypingMode) : Bool :=
  mode == .thinking

/-- `signalRunStart` (typing-mode.ts lines 1651-1654): the controller
calls it places. -/
def signalRunStartCalls (mode : TypingMode) (isHeartbeat : Bool) : List TypingCall :=
  if typingDisabled mode isHeartbeat || !shouldStartImmediately mode then []
  else [.startTypingLoop]

/-- `signalTextDelta` (typing-mode.ts lines 1656-1665). -/
def signalTextDeltaCalls (mode : TypingMode) (isHeartbeat : Bool) : List TypingCall :=
  if typingDisabled mode isHeartbeat then []
  else if shouldStartOnText mode then [.startTypingOnText]
  else if shouldStartOnReasoning mode then [.refreshTypingTtl]
  else []

/-- `signalReasoningDelta` (typing-mode.ts lines 1667-1671). -/
def signalReasoningDeltaCalls (mode : TypingMode) (isHeartbeat : Bool) : List TypingCall :=
  if typingDisabled mode isHeartbeat || !shouldStartOnReasoning mode then []
  else [.startTypingLoop, .refreshTypingTtl]

/-- `signalToolStart` (typing-mode.ts lines 1673-1677). -/
def signalToolStartCalls (mode : TypingMode) (isHeartbeat : Bool) : List TypingCall :=
  if typingDisabled mode isHeartbeat then []
  else [.startTypingLoop]

/-- The dedup invariant maintained by `processBlockReply` over one run:
the delivered blocks have pairwise-distinct keys, all of which are
tracked in `streamedKeys`. -/
def blockKeysInvariant (st : BlockState) : Prop :=
  (st.delivered.map buildPayloadKey).Nodup ∧
  ∀ K ∈ st.delivered.map buildPayloadKey, K ∈ st.streamedKeys

/-- The block-event fold of one run (the `onBlockReply` registrations). -/
def foldBlocks (i : CompletionInput) (blocks : List ReplyPayload) : BlockState :=
  blocks.foldl (processBlockReply i.isHeartbeat i.replyToMode i.currentMessageId) {}

/-! ### Concrete scenario inputs used by the claim analyses -/

/-- A session entry with a resolvable sessionId and a known `updatedAt`. -/
def scenarioEntry : SessionEntry :=
  { sessionId := some "sid"
    updatedAt := 5
    totalTokens := some 7 }

/-- Scenario A of the spec: steer mode, active streaming run, side-channel
injection succeeds, no followup requested. -/
def steerScenarioInput : SteerInput :=
  { shouldSteer := true
    shouldFollowup := false
    isActive := true
    isStreaming := true
    injectionSucceeds := true
    queueModeIsSteer := true
    sessionKey := some "k"
    sessionEntry := some scenarioEntry
    store := some [("k", scenarioEntry)]
    now := 10 }

/-- A small steer input for the amended-claim witness. -/
def steerWitnessInput : SteerInput :=
  { shouldSteer := true
    shouldFollowup := false
    isActive := true
    isStreaming := true
    injectionSucceeds := true
    queueModeIsSteer := true
    sessionKey := some "w"
    sessionEntry := some { updatedAt := 1 }
    store := some [("w", { updatedAt := 1 })]
    now := 2 }

/-- A catch-handler context with key, store and store path present. -/
def corruptionCtx : PreReplyCtx :=
  { sessionKey := some "k"
    store := some [("k", scenarioEntry)]
    storePath := some "/tmp/store.json"
    sessionEntry := some scenarioEntry }

/-- A provider error carrying the Gemini malformed-history signature. -/
def corruptionMsg : String :=
  "400: function call turn comes immediately after a user turn"

/-- Scenario C of the spec: a completed run with usage
`{input: 100, output: 50}`, no cache tokens, one deliverable payload. -/
def scenarioCInput : CompletionInput :=
  { payloads := [{ text := some "reply" }]
    usage := some { input := some 100, output := some 50 }
    sessionKey := some "k"
    sessionEntry := some scenarioEntry
    store := some [("k", scenarioEntry)]
    now := 42 }

/-- The same run as `scenarioCInput` but with an empty final payload
array. -/
def emptyPayloadRunInput : CompletionInput :=
  { payloads := []
    usage := some { input := some 100, output := some 50 }
    sessionKey := some "k"
    sessionEntry := some scenarioEntry
    store := some [("k", scenarioEntry)]
    now := 42 }

/-- A generic provider error message longer than the 600-character cap:
601 repetitions of a character matching none of the classification
patterns. -/
def longErrMsg : String := ⟨List.replicate 601 'a'⟩

/-- An assistant error message carrying `longErrMsg`. -/
def longAssistantErr : AssistantMessage :=
  { stopReason := "error", errorMessage := some longErrMsg }

/-- A run in which the final payload array repeats one payload twice
(block streaming disabled). -/
def duplicateFinalsInput : CompletionInput :=
  { payloads := [{ text := some "hi" }, { text := some "hi" }] }

/-- A block-streaming run delivering one block and then receiving a final
payload with the same dedup key. -/
def roundTripInput : CompletionInput :=
  { payloads := [{ text := some "hi" }]
    blockStreamingEnabled := true }

/-! ### Supporting lemmas -/

theorem stripOnce_length_le (fuel : Nat) (l : List Char) :
    (stripOnce fuel l).length ≤ l.length := by
  induction fuel generalizing l with
  | zero => simp [stripOnce]
  | succ n ih =>
    cases l with
    | nil => simp [stripOnce]
    | cons c cs =>
      simp only [stripOnce]
      split
      · calc (stripOnce n ((c :: cs).drop hbTok.length)).length
            ≤ ((c :: cs).drop hbTok.length).length := ih _
          _ ≤ (c :: cs).length := by
              simp [List.length_drop]
      · simpa using ih cs

theorem stripOnce_length_lt (fuel : Nat) (l : List Char)
    (hocc : hbTok <:+: l) (hfuel : l.length ≤ fuel) :
    (stripOnce fuel l).length < l.length := by
  induction fuel generalizing l with
  | zero =>
    have : l = [] := List.length_eq_zero.mp (Nat.le_antisymm hfuel (Nat.zero_le _))
    subst this
    have : hbTok = [] := List.eq_nil_of_infix_nil hocc
    simp [hbTok] at this
  | succ n ih =>
    cases l with
    | nil =>
      have : hbTok = [] := List.eq_nil_of_infix_nil hocc
      simp [hbTok] at this
    | cons c cs =>
      simp only [stripOnce]
      split
      · next hpre =>
        have hlen : hbTok.length ≤ (c :: cs).length := hpre.length_le
        have htok : 0 < hbTok.length := by simp [hbTok]
        calc (stripOnce n ((c :: cs).drop hbTok.length)).length
            ≤ ((c :: cs).drop hbTok.length).length := stripOnce_length_le _ _
          _ = (c :: cs).length - hbTok.length := by simp [List.length_drop]
          _ < (c :: cs).length := by omega
      · next hpre =>
        have hcs : hbTok <:+: cs := by
          rcases List.infix_cons_iff.mp hocc with h | h
          · exact absurd h hpre
          · exact h
        have hfuel' : cs.length ≤ n := by
          simpa using Nat.le_of_succ_le_succ hfuel
        have := ih cs hcs hfuel'
        simpa using Nat.succ_lt_succ this

theorem stripLoop_no_token (fuel : Nat) (l : List Char)
    (hfuel : l.length ≤ fuel) : ¬ (hbTok <:+: stripLoop fuel l) := by
  induction fuel generalizing l with
  | zero =>
    have : l = [] := List.length_eq_zero.mp (Nat.le_antisymm hfuel (Nat.zero_le _))
    subst this
    intro h
    have : hbTok = [] := List.eq_nil_of_infix_nil h
    simp [hbTok] at this
  | succ n ih =>
    simp only [stripLoop]
    split
    · next hocc =>
      apply ih
      have := stripOnce_length_lt l.length l hocc le_rfl
      omega
    · next hocc => exact hocc

/-- The stripped text never contains the heartbeat token. -/
theorem stripAllChars_no_token (l : List Char) :
    ¬ (hbTok <:+: stripAllChars l) :=
  stripLoop_no_token l.length l le_rfl

theorem containsHeartbeat_strip (s : String) :
    containsHeartbeat (stripHeartbeatToken s).text = false := by
  simp only [containsHeartbeat, stripHeartbeatToken]
  exact decide_eq_false (stripAllChars_no_token s.data)

theorem find?_filter_ne_none (st : Store) (k : String) :
    (st.filter (fun kv => kv.1 != k)).find? (fun kv => kv.1 == k) = none := by
  rw [List.find?_eq_none]
  intro kv hkv
  have := List.of_mem_filter hkv
  simpa using this

theorem lookupEntry_setEntry_self (st : Store) (k : String) (e : SessionEntry) :
    lookupEntry (setEntry st k e) k = some e := by
  simp only [lookupEntry, setEntry, List.find?_append, find?_filter_ne_none,
    Option.none_orElse, List.find?]
  simp

theorem lookupEntry_removeEntry_self (st : Store) (k : String) :
    lookupEntry (removeEntry st k) k = none := by
  simp [lookupEntry, removeEntry, find?_filter_ne_none]

theorem stripHeartbeatToken_skip_of_empty (t : String)
    (h : (stripHeartbeatToken t).text = "") :
    (stripHeartbeatToken t).shouldSkip = true := by
  simp only [stripHeartbeatToken] at h ⊢
  have hdata : stripAllChars t.data = [] := by
    simpa using congrArg String.data h
  simp [hdata]

theorem hbFinalGate_no_token (p : ReplyPayload) (t : String)
    (q : ReplyPayload) (u : String) (hq : q ∈ hbFinalGate p t)
    (hqt : q.text = some u) : containsHeartbeat u = false := by
  simp only [hbFinalGate] at hq
  split at hq
  · next hcb =>
    simp only [List.mem_singleton] at hq
    subst hq
    simp only [Option.some.injEq] at hqt
    subst hqt
    simpa using hcb
  · split at hq
    · simp at hq
    · simp only [List.mem_singleton] at hq
      subst hq
      simp only [Option.some.injEq] at hqt
      subst hqt
      exact containsHeartbeat_strip _

/-! ### Claim C7 -/

/-- Claim C7, confirmed: for non-heartbeat streaming events and final
payloads, any delivered text is free of the reserved heartbeat
acknowledgement token (stripped when present), and an event or payload
whose text strips to empty with no attached media is suppressed entirely
— no text containing the token ever reaches user-visible output. -/
theorem heartbeat_strip_confirmed (t : String) (mediaCount : Nat)
    (p : ReplyPayload) :
    (∀ u, sanitizeStreamEvent false (some t) mediaCount = some (some u) →
      containsHeartbeat u = false) ∧
    (containsHeartbeat t = true → (stripHeartbeatToken t).text = "" →
      mediaCount = 0 → sanitizeStreamEvent false (some t) mediaCount = none) ∧
    (∀ q, q ∈ sanitizeFinalPayload p → ∀ u, q.text = some u →
      containsHeartbeat u = false) ∧
    (∀ u, p.text = some u → p.isError = false → containsHeartbeat u = true →
      (stripHeartbeatToken u).text = "" → p.mediaUrl = none →
      p.mediaUrls.getD [] = [] → sanitizeFinalPayload p = []) := by
  refine ⟨?_, ?_, ?_, ?_⟩
  · intro u hu
    by_cases hcb : containsHeartbeat t = true
    · simp only [sanitizeStreamEvent, Bool.not_false, Bool.true_and, hcb,
        if_true] at hu
      by_cases hsk : ((stripHeartbeatToken t).shouldSkip && (mediaCount == 0)) = true
      · simp [hsk] at hu
      · have hsk' : ((stripHeartbeatToken t).shouldSkip && (mediaCount == 0)) = false := by
          simpa using hsk
        simp only [hsk', Bool.false_eq_true, if_false, Option.some.injEq] at hu
        subst hu
        exact containsHeartbeat_strip t
    · have hcb' : containsHeartbeat t = false := by
        simpa using hcb
      simp only [sanitizeStreamEvent, hcb', Bool.not_false, Bool.true_and,
        Bool.false_eq_true, if_false, Option.some.injEq] at hu
      subst hu
      exact hcb'
  · intro hcb hempty hm
    have hsk := stripHeartbeatToken_skip_of_empty t hempty
    simp [sanitizeStreamEvent, hcb, hsk, hm]
  · intro q hq u hqt
    rcases hpt : p.text with _ | t0
    · simp only [sanitizeFinalPayload, hpt, List.mem_singleton] at hq
      subst hq
      simp at hqt
    · simp only [sanitizeFinalPayload, hpt] at hq
      exact hbFinalGate_no_token p _ q u hq hqt
  · intro u hptext hperr hcb hempty hmu hmus
    have hsk := stripHeartbeatToken_skip_of_empty u hempty
    have hmus' : p.mediaUrls = none ∨ p.mediaUrls = some [] := by
      rcases hm : p.mediaUrls with _ | l
      · exact Or.inl rfl
      · rcases l with _ | ⟨a, l⟩
        · exact Or.inr rfl
        · rw [hm] at hmus
          simp at hmus
    rcases hmus' with hm | hm <;>
      simp [sanitizeFinalPayload, hbFinalGate, hptext, hperr, hcb, hsk, hmu, hm]

/-- Witness for `heartbeat_strip_confirmed`: the token alone is suppressed
both as a streaming event and as a final payload. -/
theorem heartbeat_strip_confirmed_witness :
    sanitizeStreamEvent false (some "HEARTBEAT_OK") 0 = none ∧
    sanitizeFinalPayload { text := some "HEARTBEAT_OK" } = [] := by
  constructor
  · exact (heartbeat_strip_confirmed "HEARTBEAT_OK" 0 {}).2.1
      (by decide) (by decide) rfl
  · exact (heartbeat_strip_confirmed "HEARTBEAT_OK" 0
      { text := some "HEARTBEAT_OK" }).2.2.2 "HEARTBEAT_OK" rfl rfl
      (by decide) (by decide) rfl rfl

/-! ### Claim C10 -/

/-- Claim C10, confirmed: a streamed block whose text — after reply
tagging and audio-tag extraction — trims to the reserved silent-reply
token and which carries no media is suppressed before dedup tracking:
the dedup state is unchanged, so the block-reply callback is never
invoked for it and it is never counted as streamed content. -/
theorem silent_block_suppressed (mode : ReplyToMode) (msgId : Option String)
    (st : BlockState) (p : ReplyPayload) (t : String)
    (htext : p.text = some t)
    (hnb : containsHeartbeat t = false)
    (hmedia : (p.mediaUrls.getD []).isEmpty = true)
    (hsilent : jsTrim t = SILENT_REPLY_TOKEN) :
    processBlockReply false mode msgId st p = st := by
  have htne : t.data.isEmpty = false := by
    cases hd : t.data with
    | nil =>
      exfalso
      have ht0 : t = "" := by
        cases t with
        | mk d =>
          simp only at hd
          subst hd
          rfl
      rw [ht0] at hsilent
      exact absurd hsilent (by decide)
    | cons a as => rfl
  have hmus : p.mediaUrls = none ∨ p.mediaUrls = some [] := by
    rcases hm : p.mediaUrls with _ | l
    · exact Or.inl rfl
    · rcases l with _ | ⟨a, l⟩
      · exact Or.inr rfl
      · rw [hm] at hmedia
        simp at hmedia
  rcases hmus with hm | hm <;>
    simp [processBlockReply, htext, hnb, hm, applyReplyTagsToPayload,
      extractAudioTag, isRenderablePayload, htne, hsilent, SILENT_REPLY_TOKEN]

/-- Witness for `silent_block_suppressed` at a concrete block. -/
theorem silent_block_suppressed_witness :
    processBlockReply false ReplyToMode.off none {}
      { text := some "SILENT_REPLY" } = {} :=
  silent_block_suppressed ReplyToMode.off none {}
    { text := some "SILENT_REPLY" } "SILENT_REPLY" rfl (by decide) rfl
    (by decide)

/-! ### Claim C2 -/

/-- Claim C2, counterexample: with block streaming enabled and a block
already streamed (`didStreamBlockReply = true`), a final payload whose
dedup key matches no streamed block is nevertheless removed — the final
filter drops the entire list, refuting "a final payload whose key matches
no streamed block is still delivered". -/
theorem final_filter_nonmatching_dropped_counterexample :
    finalFilterStage true true
      [buildPayloadKey { text := some "streamed block" }]
      [{ text := some "fresh final" }] = [] ∧
    buildPayloadKey ({ text := some "fresh final" } : ReplyPayload) ≠
      buildPayloadKey ({ text := some "streamed block" } : ReplyPayload) := by
  decide

/-- Claim C2, amended: with block streaming enabled, if at least one block
was streamed the whole final payload list is dropped (matching and
non-matching keys alike); key-based filtering of the final list against
streamed keys only happens when no block was streamed. -/
theorem final_filter_amended (streamedKeys : List PayloadKey)
    (deduped : List ReplyPayload) (didStream : Bool) :
    (didStream = true → finalFilterStage true didStream streamedKeys deduped = []) ∧
    (didStream = false → finalFilterStage true didStream streamedKeys deduped =
      deduped.filter (fun p => !(streamedKeys.contains (buildPayloadKey p)))) := by
  constructor
  · intro h; subst h; simp [finalFilterStage]
  · intro h; subst h; simp [finalFilterStage]

/-- Witness for `final_filter_amended` at a concrete input. -/
theorem final_filter_amended_witness :
    finalFilterStage true true [buildPayloadKey { text := some "k1" }]
      [{ text := some "k2" }] = [] :=
  (final_filter_amended [buildPayloadKey { text := some "k1" }]
    [{ text := some "k2" }] true).1 rfl

/-! ### Claim C3 -/

/-- Claim C3, counterexample: steer mode, active streaming run, injection
succeeds, no followup — the run is not enqueued and no new turn starts,
but the Session entry is *not* left untouched: its `updatedAt` field is
overwritten with the current time and the store is rewritten. -/
theorem steer_session_touched_counterexample :
    (steerAdmission steerScenarioInput).outcome = AdmitOutcome.injected ∧
    (steerAdmission steerScenarioInput).enqueuedRun = false ∧
    (steerAdmission steerScenarioInput).store ≠ some [("k", scenarioEntry)] ∧
    (lookupEntry ((steerAdmission steerScenarioInput).store.getD []) "k").map
      (·.updatedAt) = some 10 := by
  decide

/-- Claim C3, amended: on a successful steer injection with no followup,
the request is not enqueued, no new agent turn starts (`injected` is
returned), and the stored Session entry is preserved in every field
except `updatedAt`, which is refreshed to the current time. -/
theorem steer_injected_amended (s : SteerInput) (k : String) (st : Store)
    (e : SessionEntry)
    (hsteer : s.shouldSteer = true) (hstream : s.isStreaming = true)
    (hinj : s.injectionSucceeds = true) (hfu : s.shouldFollowup = false)
    (hkey : s.sessionKey = some k) (hstore : s.store = some st)
    (hentry : s.sessionEntry = some e) :
    (steerAdmission s).outcome = AdmitOutcome.injected ∧
    (steerAdmission s).enqueuedRun = false ∧
    (steerAdmission s).store = some (setEntry st k { e with updatedAt := s.now }) ∧
    lookupEntry (setEntry st k { e with updatedAt := s.now }) k =
      some { e with updatedAt := s.now } := by
  refine ⟨?_, ?_, ?_, lookupEntry_setEntry_self st k _⟩ <;>
    simp [steerAdmission, touchSessionUpdatedAt, hsteer, hstream, hinj, hfu,
      hkey, hstore, hentry]

/-- Witness for `steer_injected_amended` at a concrete input. -/
theorem steer_injected_amended_witness :
    (steerAdmission steerWitnessInput).outcome = AdmitOutcome.injected :=
  (steer_injected_amended steerWitnessInput "w" [("w", { updatedAt := 1 })]
    { updatedAt := 1 } rfl rfl rfl rfl rfl rfl rfl).1

/-! ### Claim C6 -/

/-- Claim C6, confirmed: a run failure whose message matches the
malformed-history-ordering signature, with a session key, store and store
path present, deletes the transcript artifact exactly when the corrupted
sessionId is resolvable, removes the Session entry from the store (so a
fresh sessionId is minted), and returns the single apology payload; the
handler is total — the error is never propagated. -/
theorem session_corruption_recovery (msg k path : String) (st : Store)
    (entry : Option SessionEntry)
    (hsig : isSessionCorruptionMsg msg = true) :
    handlePreReplyFailure
      { sessionKey := some k, store := some st, storePath := some path,
        sessionEntry := entry } msg =
      { store := some (removeEntry st k)
        transcriptDeleted := (entry.bind (·.sessionId)).isSome
        payload := { text := some "⚠️ Session history was corrupted. I've reset the conversation - please try again!" }
        recovered := true } ∧
    lookupEntry (removeEntry st k) k = none := by
  refine ⟨?_, lookupEntry_removeEntry_self st k⟩
  simp [handlePreReplyFailure, hsig]

/-- Witness for `session_corruption_recovery` at a concrete input. -/
theorem session_corruption_recovery_witness :
    (handlePreReplyFailure corruptionCtx corruptionMsg).recovered = true := by
  have h := session_corruption_recovery corruptionMsg "k" "/tmp/store.json"
    [("k", scenarioEntry)] (some scenarioEntry) (by decide)
  simpa [corruptionCtx] using congrArg PreReplyResult.recovered h.1

/-! ### Claim C1 -/

/-- Claim C1, counterexample: a run completing with usage
`{input: 100, output: 50}` and no cache tokens leaves
`Session.totalTokens = 100` — the cache-aware prompt sum
`input + cacheRead + cacheWrite`, which never includes `output` — not
150; there is no configuration under which the sum reaches 150 here. -/
theorem session_totalTokens_counterexample :
    (lookupEntry ((runReplyCompletion scenarioCInput).1.getD []) "k").map
      (·.totalTokens) = some (some 100) ∧
    (lookupEntry ((runReplyCompletion scenarioCInput).1.getD []) "k").map
      (·.totalTokens) ≠ some (some 150) ∧
    (lookupEntry ((runReplyCompletion scenarioCInput).1.getD []) "k").map
      (·.updatedAt) = some (some 42).get! ∧
    hasNonzeroUsage scenarioCInput.usage = true := by
  decide

/-- Claim C1, amended: when the completion reaches the session update
(store and key present, delivery path taken) and the run produced
nonzero usage with `input = 100`, `output = 50`, no cache tokens, the
entry's counters are overwritten with `inputTokens = 100`,
`outputTokens = 50`, `totalTokens = 100` (the cache-aware sum
`input + cacheRead + cacheWrite`, falling back to `usage.total ?? input`
when that sum is zero) and `updatedAt` advances to the completion time. -/
theorem session_usage_overwrite_amended (st : Store) (k : String)
    (i : CompletionInput) (e : SessionEntry) (u : Usage)
    (husage : i.usage = some u)
    (hentry : (i.sessionEntry <|> lookupEntry st k) = some e)
    (hin : u.input = some 100) (hout : u.output = some 50)
    (hcr : u.cacheRead = none) (hcw : u.cacheWrite = none) :
    ∃ e', lookupEntry (completionSessionUpdate st k i) k = some e' ∧
      e'.inputTokens = some 100 ∧ e'.outputTokens = some 50 ∧
      e'.totalTokens = some 100 ∧ e'.updatedAt = i.now ∧
      e'.model = some (completionModelUsed i) := by
  refine ⟨applyUsageToEntry e u (completionProviderUsed i) (completionModelUsed i)
    (completionContextTokens i) i.now, ?_, ?_⟩
  · have hnzf : hasNonzeroUsageFields u = true := by
      simp [hasNonzeroUsageFields, hin]
    simp [completionSessionUpdate, hasNonzeroUsage, hnzf, husage, hentry,
      lookupEntry_setEntry_self]
  · simp [applyUsageToEntry, hin, hout, hcr, hcw]

/-- Witness for `session_usage_overwrite_amended` at Scenario C's inputs. -/
theorem session_usage_overwrite_amended_witness :
    ∃ e', lookupEntry
        (completionSessionUpdate [("k", scenarioEntry)] "k" scenarioCInput) "k" =
        some e' ∧
      e'.inputTokens = some 100 ∧ e'.outputTokens = some 50 ∧
      e'.totalTokens = some 100 ∧ e'.updatedAt = scenarioCInput.now ∧
      e'.model = some (completionModelUsed scenarioCInput) :=
  session_usage_overwrite_amended [("k", scenarioEntry)] "k" scenarioCInput
    scenarioEntry { input := some 100, output := some 50 }
    rfl rfl rfl rfl rfl rfl

/-! ### Claim C4 -/

/-- Claim C4, counterexample: a completed run with nonzero token usage
whose final payload list is empty returns early and leaves the stored
Session entry unchanged — no usage counter, model, provider or
contextTokens write-back happens, refuting "including runs whose final
payload list is empty". -/
theorem empty_payloads_no_session_write_counterexample :
    hasNonzeroUsage emptyPayloadRunInput.usage = true ∧
    runReplyCompletion emptyPayloadRunInput = (some [("k", scenarioEntry)], []) ∧
    (lookupEntry ((runReplyCompletion emptyPayloadRunInput).1.getD []) "k").map
      (·.inputTokens) = some none := by
  decide

/-- Claim C4, amended: the Session entry is mutated (usage counters
and/or model, modelProvider, contextTokens written back) after every
completed run that produced usage or model info *and* whose delivered
payload list is non-empty; a run whose payload array or filtered payload
list is empty returns early without the session write. -/
theorem session_mutation_on_delivery_amended (i : CompletionInput) (st : Store)
    (k : String)
    (hstore : i.store = some st) (hkey : i.sessionKey = some k)
    (hgroup : i.shouldInjectGroupIntro = false)
    (hcomp : i.autoCompactionCompleted = false)
    (hpay : i.payloads ≠ [])
    (hfil : completionFilteredPayloads i ≠ []) :
    (runReplyCompletion i).1 = some (completionSessionUpdate st k i) := by
  have hpay' : i.payloads.isEmpty = false := by
    simpa [List.isEmpty_iff] using hpay
  have hfil' : (completionFilteredPayloads i).isEmpty = false := by
    simpa [List.isEmpty_iff] using hfil
  have hgi : groupIntroStage i = (i.store, i.sessionEntry) := by
    simp [groupIntroStage, hgroup]
  have hi1 : ({ i with store := i.store, sessionEntry := i.sessionEntry } :
      CompletionInput) = i := rfl
  simp only [runReplyCompletion, hgi, hi1]
  simp [hpay', hfil', hcomp, hstore, hkey]

/-- Witness for `session_mutation_on_delivery_amended` at Scenario C's
inputs. -/
theorem session_mutation_on_delivery_amended_witness :
    (runReplyCompletion scenarioCInput).1 =
      some (completionSessionUpdate [("k", scenarioEntry)] "k" scenarioCInput) :=
  session_mutation_on_delivery_amended scenarioCInput [("k", scenarioEntry)] "k"
    rfl rfl rfl rfl (by decide) (by decide)

/-! ### Claim C5 -/

set_option maxRecDepth 8000 in
/-- Claim C5, counterexample: a generic pre-reply provider failure whose
message is 601 characters long is embedded verbatim in the returned
payload text — the raw provider error text is not truncated to 600
characters plus an ellipsis on this path. -/
theorem prereply_untruncated_counterexample :
    (handlePreReplyFailure {} longErrMsg).payload.text =
      some ("⚠️ Agent failed before reply: " ++ longErrMsg ++
        ". Check gateway logs for details.") ∧
    600 < jsLen longErrMsg := by
  decide

/-- Claim C5, amended: every pre-reply failure (corruption or not) yields
a textual payload instead of raising; the generic pre-reply message
embeds the raw error text untruncated, while the ≤600-character
truncation (600 characters plus an ellipsis) is applied by
`formatAssistantErrorText` to assistant-level provider errors in its
fallback branch. -/
theorem prereply_error_payload_amended (ctx : PreReplyCtx) (message : String)
    (m : AssistantMessage) (raw : String)
    (hstop : m.stopReason = "error")
    (hraw : jsTrim (m.errorMessage.getD "") = raw)
    (hne : raw.data.isEmpty = false)
    (hov : isContextOverflowError (some raw) = false)
    (hinv : findInvalidRequestMessage raw = none)
    (hlong : 600 < raw.data.length) :
    (handlePreReplyFailure ctx message).payload.text.isSome = true ∧
    formatAssistantErrorText m = some (jsTakeChars raw 600 ++ "…") ∧
    jsLen (jsTakeChars raw 600) = 600 := by
  refine ⟨?_, ?_, ?_⟩
  · rcases ctx with ⟨sk, st, sp, se⟩
    cases hsc : isSessionCorruptionMsg message <;>
      cases sk <;> cases st <;> cases sp <;>
        simp [handlePreReplyFailure, hsc]
  · have hstop' : (m.stopReason != "error") = false := by
      simp [hstop]
    simp only [formatAssistantErrorText, hstop', Bool.false_eq_true, if_false,
      hraw, hne, hov, hinv]
    rw [if_pos hlong]
  · simp only [jsLen, jsTakeChars, List.length_take]
    omega

set_option maxRecDepth 8000 in
/-- Witness for `prereply_error_payload_amended` at the 601-character
message. -/
theorem prereply_error_payload_amended_witness :
    formatAssistantErrorText longAssistantErr =
      some (jsTakeChars longErrMsg 600 ++ "…") :=
  (prereply_error_payload_amended {} "boom" longAssistantErr longErrMsg
    rfl (by decide) (by decide) (by decide) (by decide) (by decide)).2.1

/-! ### Claim C8 -/

theorem processBlockReply_cases (hb : Bool) (mode : ReplyToMode)
    (msgId : Option String) (st : BlockState) (p : ReplyPayload) :
    processBlockReply hb mode msgId st p = st ∨
    ∃ bp, st.streamedKeys.contains (buildPayloadKey bp) = false ∧
      processBlockReply hb mode msgId st p =
        { streamedKeys := st.streamedKeys ++ [buildPayloadKey bp]
          delivered := st.delivered ++ [bp]
          didStream := true } := by
  simp only [processBlockReply]
  repeat' split
  all_goals
    first
      | exact Or.inl rfl
      | (rename_i hfresh
         exact Or.inr ⟨_, by simpa using hfresh, rfl⟩)

theorem processBlockReply_invariant (hb : Bool) (mode : ReplyToMode)
    (msgId : Option String) (st : BlockState) (p : ReplyPayload)
    (h : blockKeysInvariant st) :
    blockKeysInvariant (processBlockReply hb mode msgId st p) := by
  obtain ⟨hnd, hsub⟩ := h
  rcases processBlockReply_cases hb mode msgId st p with heq | ⟨bp, hfresh, heq⟩
  · rw [heq]; exact ⟨hnd, hsub⟩
  · rw [heq]
    have hpk : buildPayloadKey bp ∉ st.streamedKeys := by
      simpa using hfresh
    constructor
    · simp only [List.map_append, List.map_cons, List.map_nil]
      rw [List.nodup_append]
      refine ⟨hnd, List.nodup_singleton _, ?_⟩
      intro K hK
      simp only [List.mem_singleton]
      intro hKe
      subst hKe
      exact hpk (hsub _ hK)
    · intro K hK
      simp only [List.map_append, List.map_cons, List.map_nil,
        List.mem_append, List.mem_singleton] at hK
      rcases hK with hK | hK
      · exact List.mem_append_left _ (hsub K hK)
      · subst hK
        exact List.mem_append_right _ (List.mem_singleton_self _)

theorem foldBlocks_invariant (i : CompletionInput) (blocks : List ReplyPayload) :
    blockKeysInvariant (foldBlocks i blocks) := by
  have hgen : ∀ (bs : List ReplyPayload) (st : BlockState),
      blockKeysInvariant st →
      blockKeysInvariant (bs.foldl
        (processBlockReply i.isHeartbeat i.replyToMode i.currentMessageId) st) := by
    intro bs
    induction bs with
    | nil => intro st h; exact h
    | cons b bs ih =>
      intro st h
      exact ih _ (processBlockReply_invariant _ _ _ _ _ h)
  exact hgen blocks {} ⟨List.nodup_nil, by simp⟩

theorem runCompletion_drop_all (j : CompletionInput)
    (he : j.blockStreamingEnabled = true)
    (hd : j.didStreamBlockReply = true) :
    (runReplyCompletion j).2 = [] := by
  by_cases hp : j.payloads.isEmpty = true
  · simp [runReplyCompletion, hp]
  · have hp' : j.payloads.isEmpty = false := by
      simpa using hp
    simp [runReplyCompletion, hp', completionFilteredPayloads,
      finalFilterStage, he, hd]

/-- Claim C8, amended: within one block-streaming run the streamed blocks
have pairwise-distinct dedup keys (a key already delivered or in flight
is never delivered again), and once any block was streamed the final
payload list is dropped entirely, so a block with key K followed by a
final payload with key K yields exactly one delivered payload — at most
one delivery per key overall.  The final payload list itself, however, is
not internally deduplicated (see the counterexample). -/
theorem block_dedup_amended (i : CompletionInput) (blocks : List ReplyPayload)
    (henabled : i.blockStreamingEnabled = true)
    (hds : (foldBlocks i blocks).didStream = true) :
    ((foldBlocks i blocks).delivered.map buildPayloadKey).Nodup ∧
    runBlocksThenFinal i blocks = (foldBlocks i blocks).delivered ∧
    (∀ K, ((runBlocksThenFinal i blocks).map buildPayloadKey).count K ≤ 1) := by
  have hinv := foldBlocks_invariant i blocks
  have hnd := hinv.1
  have hdrop := runCompletion_drop_all
    { i with
      streamedPayloadKeys := (foldBlocks i blocks).streamedKeys
      didStreamBlockReply := (foldBlocks i blocks).didStream }
    (by simpa using henabled) (by simpa using hds)
  have heq : runBlocksThenFinal i blocks = (foldBlocks i blocks).delivered := by
    simp only [runBlocksThenFinal, henabled, if_true, foldBlocks] at hdrop ⊢
    rw [hdrop, List.append_nil]
  refine ⟨hnd, heq, ?_⟩
  intro K
  rw [heq]
  exact List.nodup_iff_count_le_one.mp hnd K

/-- Witness for `block_dedup_amended`: one block delivered, then a final
payload with the same key — exactly the streamed block is delivered. -/
theorem block_dedup_amended_witness :
    runBlocksThenFinal roundTripInput [{ text := some "hi" }] =
      (foldBlocks roundTripInput [{ text := some "hi" }]).delivered :=
  (block_dedup_amended roundTripInput [{ text := some "hi" }] rfl
    (by decide)).2.1

/-- Claim C8, counterexample: a run whose final payload array contains
the same payload twice delivers two payloads with the same dedup key —
the final list is not internally deduplicated, refuting "at most one
payload with that key is delivered" as a universal statement. -/
theorem final_duplicate_keys_counterexample :
    (runBlocksThenFinal duplicateFinalsInput []).length = 2 ∧
    ((runBlocksThenFinal duplicateFinalsInput []).map buildPayloadKey).count
      (buildPayloadKey { text := some "hi" }) = 2 := by
  decide

/-! ### Claim C9 -/

/-- Claim C9, counterexample: in thinking mode (non-heartbeat) a
tool-start event does not merely refresh the liveness TTL — it places a
`startTypingLoop` call on the controller, refuting "every subsequent text
or tool-start event only refreshes the liveness TTL and never re-triggers
a typing start call". -/
theorem typing_toolstart_starts_counterexample :
    signalToolStartCalls TypingMode.thinking false = [TypingCall.startTypingLoop] ∧
    TypingCall.refreshTypingTtl ∉ signalToolStartCalls TypingMode.thinking false := by
  decide

/-- Claim C9, amended: in thinking mode (non-heartbeat) the indicator is
started on a reasoning delta; text deltas only refresh the liveness TTL
and never place a start call; tool-start events invoke the
`startTypingLoop` start call (keeping the indicator alive across tool
execution) rather than a TTL refresh. -/
theorem typing_thinking_amended :
    signalReasoningDeltaCalls TypingMode.thinking false =
      [TypingCall.startTypingLoop, TypingCall.refreshTypingTtl] ∧
    signalTextDeltaCalls TypingMode.thinking false = [TypingCall.refreshTypingTtl] ∧
    TypingCall.startTypingLoop ∉ signalTextDeltaCalls TypingMode.thinking false ∧
    signalToolStartCalls TypingMode.thinking false = [TypingCall.startTypingLoop] := by
  decide

end OpenClaw
